import Mathlib

/-!
Verification of the plan-builder layer of a distributed KV-store client
(`src/request/plan_builder.rs`).

The Rust code is a type-state builder: `PlanBuilder<PdC, P, Ph>` carries a
phantom phase tag `Ph : PlanBuilderPhase` (`NoTarget` or `Targetted`), and
each method's `impl` block restricts the phases and trait bounds under which
it is available.

We embed the code at two levels:

* a value level: the builder structure, the plan decorator structures (fields
  exactly as constructed in the Rust struct literals), and each method as a
  Lean function whose type mirrors the Rust signature, phase index included;

* an availability level: the set of `impl` blocks is translated into a step
  function `step` over an abstract builder state (phase plus plan shape),
  with the trait bounds of each `impl` block supplied by a trait oracle.
  `step tr s op = some s'` means the Rust method `op` is callable (and, for
  the fallible binding methods, can succeed) on a builder in state `s`, and
  produces a builder in state `s'`.

External collaborators (`Store`, `Region::context`, `PdClient::store_for_key`,
`KvRequest::set_context`, `SingleKey::key`) are modelled at their boundary:
only the operations used by `plan_builder.rs` appear, as record fields.
-/

namespace PB

/-- Used to ensure that a plan has a designated target or targets
(`PlanBuilderPhase` in the source, with its two implementations
`NoTarget` and `Targetted`). -/
inductive PlanBuilderPhase where
  | NoTarget
  | Targetted
deriving DecidableEq, Repr

/-- A region, as used by `plan_builder.rs`: the only operation consumed is
`region.context()`, which is fallible (`?` in `set_single_region_store`).
The external call is modelled by its outcome. -/
structure Region (Ctx Err : Type) where
  context : Except Err Ctx
deriving Repr

/-- A store: the binding of a region plus a connected client handle.
Only the fields `region` and `client` are consumed by `plan_builder.rs`. -/
structure Store (Ctx Err KvClient : Type) where
  region : Region Ctx Err
  client : KvClient
deriving Repr

/-- The PD (routing) client, at the boundary used by `plan_builder.rs`:
`store_for_key` resolves the store currently serving a key
(async and fallible in the source; modelled by its outcome). -/
structure PdClient (K Ctx Err KvClient : Type) where
  store_for_key : K → Except Err (Store Ctx Err KvClient)

/-- The `KvRequest` operation consumed by `plan_builder.rs`:
`set_context` installs a routing context on the request
(a mutation in Rust; explicit state passing here). -/
structure KvRequestOps (R Ctx : Type) where
  set_context : R → Ctx → R

/-- Indicates that a request operates on a single key (`SingleKey` trait,
declared at the bottom of `plan_builder.rs`). -/
structure SingleKeyOps (R K : Type) where
  key : R → K

/-- The base plan: one request and, once bound, a handle to one target
node (`Dispatch { request, kv_client }`). -/
structure Dispatch (R KvClient : Type) where
  request : R
  kv_client : Option KvClient
deriving DecidableEq, Repr

/-- Lock-resolution decorator, fields as constructed in `resolve_lock`:
`ResolveLock { inner, backoff, pd_client }`. -/
structure ResolveLock (P Backoff PdC : Type) where
  inner : P
  backoff : Backoff
  pd_client : PdC

/-- Region-retry decorator, fields as constructed in `retry_region`:
`RetryRegion { inner, backoff, pd_client }`. -/
structure RetryRegion (P Backoff PdC : Type) where
  inner : P
  backoff : Backoff
  pd_client : PdC

/-- Fan-out decorator, fields as constructed in `multi_region`:
`MultiRegion { inner, pd_client }`. -/
structure MultiRegion (P PdC : Type) where
  inner : P
  pd_client : PdC

/-- Merge combinator, fields as constructed in `merge`:
`MergeResponse { inner, merge, phantom }`. -/
structure MergeResponse (P M : Type) where
  inner : P
  merge : M

/-- Post-processing combinator, fields as constructed in
`post_process_default`: `ProcessResponse { inner, processor, phantom }`. -/
structure ProcessResponse (P Proc : Type) where
  inner : P
  processor : Proc

/-- Error-extraction combinator, fields as constructed in `extract_error`:
`ExtractError { inner }`. -/
structure ExtractError (P : Type) where
  inner : P

/-- The default processor value (`DefaultProcessor` unit struct). -/
structure DefaultProcessor where
deriving DecidableEq, Repr

/-- Builder type for plans: `PlanBuilder<PdC, P, Ph>`. The phase is a
phantom type index exactly as in the source (`PhantomData<Ph>`). -/
structure PlanBuilder (PdC P : Type) (Ph : PlanBuilderPhase) where
  pd_client : PdC
  plan : P

section Methods

variable {PdC P R K Ctx Err KvClient Backoff M Proc : Type}

/-- `PlanBuilder::new`: a `NoTarget` builder around a `Dispatch` holding the
request and no kv client. -/
def PlanBuilder.new (pd_client : PdC) (request : R) :
    PlanBuilder PdC (Dispatch R KvClient) .NoTarget :=
  { pd_client := pd_client
    plan := { request := request, kv_client := none } }

/-- `PlanBuilder::plan`: return the built plan; only defined on a builder in
phase `Targetted` (the sole `impl` block offering it is
`impl ... PlanBuilder<PdC, P, Targetted>`). Named `plan'` because the Rust
method shares its name with the struct field. -/
def PlanBuilder.plan' (b : PlanBuilder PdC P .Targetted) : P :=
  b.plan

/-- `PlanBuilder::resolve_lock`: phase-polymorphic; wraps the current plan in
a `ResolveLock` node. -/
def PlanBuilder.resolve_lock {Ph : PlanBuilderPhase} (b : PlanBuilder PdC P Ph)
    (backoff : Backoff) : PlanBuilder PdC (ResolveLock P Backoff PdC) Ph :=
  { pd_client := b.pd_client
    plan := { inner := b.plan, backoff := backoff, pd_client := b.pd_client } }

/-- `PlanBuilder::retry_region`: phase-polymorphic; wraps the current plan in
a `RetryRegion` node. -/
def PlanBuilder.retry_region {Ph : PlanBuilderPhase} (b : PlanBuilder PdC P Ph)
    (backoff : Backoff) : PlanBuilder PdC (RetryRegion P Backoff PdC) Ph :=
  { pd_client := b.pd_client
    plan := { inner := b.plan, backoff := backoff, pd_client := b.pd_client } }

/-- `PlanBuilder::merge`: phase-polymorphic; wraps the current plan in a
`MergeResponse` node holding the supplied merge value. -/
def PlanBuilder.merge {Ph : PlanBuilderPhase} (b : PlanBuilder PdC P Ph)
    (m : M) : PlanBuilder PdC (MergeResponse P M) Ph :=
  { pd_client := b.pd_client
    plan := { inner := b.plan, merge := m } }

/-- `PlanBuilder::post_process_default`: phase-polymorphic; wraps the current
plan in a `ProcessResponse` node holding `DefaultProcessor`. -/
def PlanBuilder.post_process_default {Ph : PlanBuilderPhase}
    (b : PlanBuilder PdC P Ph) :
    PlanBuilder PdC (ProcessResponse P DefaultProcessor) Ph :=
  { pd_client := b.pd_client
    plan := { inner := b.plan, processor := DefaultProcessor.mk } }

/-- `PlanBuilder::multi_region`: only on a `NoTarget` builder (the `impl`
block is `PlanBuilder<PdC, P, NoTarget>` with `P: Shardable`,
`P::Result: HasError`); wraps the plan in a `MultiRegion` node and yields a
`Targetted` builder. -/
def PlanBuilder.multi_region (b : PlanBuilder PdC P .NoTarget) :
    PlanBuilder PdC (MultiRegion P PdC) .Targetted :=
  { pd_client := b.pd_client
    plan := { inner := b.plan, pd_client := b.pd_client } }

/-- `set_single_region_store`: install the store's region context on the
request (`plan.request.set_context(store.region.context()?)`), bind the
client handle, and return a `Targetted` builder. The `?` on
`store.region.context()` short-circuits before any mutation. -/
def set_single_region_store (kops : KvRequestOps R Ctx)
    (plan : Dispatch R KvClient) (store : Store Ctx Err KvClient)
    (pd_client : PdC) :
    Except Err (PlanBuilder PdC (Dispatch R KvClient) .Targetted) :=
  match store.region.context with
  | .error e => .error e
  | .ok ctx =>
      .ok { plan :=
              { plan with
                request := kops.set_context plan.request ctx
                kv_client := some store.client }
            pd_client := pd_client }

/-- `PlanBuilder::single_region`: only on a `NoTarget` builder around a bare
`Dispatch` whose request is `SingleKey`; resolves the store for the
request's key via the PD client, then delegates to
`set_single_region_store`. -/
def PlanBuilder.single_region (sops : SingleKeyOps R K)
    (kops : KvRequestOps R Ctx)
    (b : PlanBuilder (PdClient K Ctx Err KvClient) (Dispatch R KvClient)
      .NoTarget) :
    Except Err
      (PlanBuilder (PdClient K Ctx Err KvClient) (Dispatch R KvClient)
        .Targetted) :=
  match b.pd_client.store_for_key (sops.key b.plan.request) with
  | .error e => .error e
  | .ok store => set_single_region_store kops b.plan store b.pd_client

/-- `PlanBuilder::single_region_with_store`: only on a `NoTarget` builder
around a bare `Dispatch` (no `SingleKey` bound); the caller supplies the
store and the method delegates straight to `set_single_region_store`. -/
def PlanBuilder.single_region_with_store (kops : KvRequestOps R Ctx)
    (b : PlanBuilder PdC (Dispatch R KvClient) .NoTarget)
    (store : Store Ctx Err KvClient) :
    Except Err (PlanBuilder PdC (Dispatch R KvClient) .Targetted) :=
  set_single_region_store kops b.plan store b.pd_client

/-- `PlanBuilder::extract_error`: only on a `Targetted` builder (the `impl`
block is `PlanBuilder<PdC, P, Targetted>` with `P::Result: HasError`);
wraps the plan in an `ExtractError` node, staying `Targetted`. -/
def PlanBuilder.extract_error (b : PlanBuilder PdC P .Targetted) :
    PlanBuilder PdC (ExtractError P) .Targetted :=
  { pd_client := b.pd_client
    plan := { inner := b.plan } }

end Methods

/-! ## Availability model

Each `impl` block of `plan_builder.rs` restricts a method to certain phases,
plan shapes and trait bounds. The shapes record the decorator tree of the
builder's plan; the trait oracle records, for each shape, whether the trait
bounds required by the `impl` blocks hold at the concrete instantiation
(`HasLocks`, `HasError`, `Shardable`, the `Result = Vec<Result<In>>`
equation of `merge`, the `DefaultProcessor: Process<In>` bound of
`post_process_default`, and the `SingleKey` bound on the request type). -/

/-- Shape of the plan held by a builder: the decorator tree. -/
inductive PlanShape where
  | dispatch
  | resolveLock (inner : PlanShape)
  | retryRegion (inner : PlanShape)
  | multiRegion (inner : PlanShape)
  | mergeResponse (inner : PlanShape)
  | processResponse (inner : PlanShape)
  | extractError (inner : PlanShape)
deriving DecidableEq, Repr

/-- Trait oracle: which trait bounds hold for the plan of each shape (and for
the fixed request type) at the concrete instantiation. -/
structure Traits where
  hasLocks : PlanShape → Bool
  hasError : PlanShape → Bool
  shardable : PlanShape → Bool
  vecResult : PlanShape → Bool
  defaultProcess : PlanShape → Bool
  singleKey : Bool

/-- Builder state: the phase tag together with the shape of the held plan. -/
structure BState where
  phase : PlanBuilderPhase
  shape : PlanShape
deriving DecidableEq, Repr

/-- The builder methods that take and return a builder. -/
inductive BOp where
  | resolve_lock
  | retry_region
  | merge
  | post_process_default
  | multi_region
  | single_region
  | single_region_with_store
  | extract_error
deriving DecidableEq, Repr

/-- The state produced by `PlanBuilder::new`: phase `NoTarget`, bare
`Dispatch`. -/
def newState : BState := { phase := .NoTarget, shape := .dispatch }

/-- One method application, translated `impl` block by `impl` block:
`step tr s op = some s'` iff the method `op` is available on a builder in
state `s` (phase restriction of its `impl` block, plan-shape restriction of
its receiver type, trait bounds per the oracle `tr`) and produces a builder
in state `s'`. The fallible binding methods are modelled by their successful
outcome; their error paths produce no builder at all. -/
def step (tr : Traits) (s : BState) : BOp → Option BState
  | .resolve_lock =>
      if tr.hasLocks s.shape then
        some { phase := s.phase, shape := .resolveLock s.shape }
      else none
  | .retry_region =>
      if tr.hasError s.shape then
        some { phase := s.phase, shape := .retryRegion s.shape }
      else none
  | .merge =>
      if tr.vecResult s.shape then
        some { phase := s.phase, shape := .mergeResponse s.shape }
      else none
  | .post_process_default =>
      if tr.defaultProcess s.shape then
        some { phase := s.phase, shape := .processResponse s.shape }
      else none
  | .multi_region =>
      if s.phase = .NoTarget ∧ tr.shardable s.shape ∧ tr.hasError s.shape then
        some { phase := .Targetted, shape := .multiRegion s.shape }
      else none
  | .single_region =>
      if s.phase = .NoTarget ∧ s.shape = .dispatch ∧ tr.singleKey then
        some { phase := .Targetted, shape := .dispatch }
      else none
  | .single_region_with_store =>
      if s.phase = .NoTarget ∧ s.shape = .dispatch then
        some { phase := .Targetted, shape := .dispatch }
      else none
  | .extract_error =>
      if s.phase = .Targetted ∧ tr.hasError s.shape then
        some { phase := .Targetted, shape := .extractError s.shape }
      else none

/-- `PlanBuilder::plan`: defined by its `impl` block only on phase
`Targetted`; returns the held plan. -/
def finalize (s : BState) : Option PlanShape :=
  if s.phase = .Targetted then some s.shape else none

/-- The target-binding methods: the three methods whose `impl` blocks return
a `Targetted` builder from a `NoTarget` one. -/
def isBinding : BOp → Bool
  | .multi_region => true
  | .single_region => true
  | .single_region_with_store => true
  | _ => false

/-- Apply a sequence of builder methods from a state, failing if any method
is unavailable. -/
def runOps (tr : Traits) (s : BState) : List BOp → Option BState
  | [] => some s
  | op :: ops => (step tr s op).bind fun s' => runOps tr s' ops

/-! ## Helper lemmas -/

/-- A non-binding method keeps the phase of the builder unchanged. -/
theorem step_nonbinding_phase (tr : Traits) (s : BState) (op : BOp)
    (s' : BState) (hnb : isBinding op = false) (h : step tr s op = some s') :
    s'.phase = s.phase := by
  cases op <;> simp only [isBinding] at hnb <;>
    simp only [step] at h <;> split at h <;>
    first
      | exact Option.noConfusion h
      | (injection h with h; subst h; simp_all)

/-- A sequence of non-binding methods keeps the phase of the builder
unchanged. -/
theorem runOps_nonbinding_phase (tr : Traits) :
    ∀ (ops : List BOp) (s s' : BState),
      (∀ op ∈ ops, isBinding op = false) → runOps tr s ops = some s' →
      s'.phase = s.phase := by
  intro ops
  induction ops with
  | nil =>
      intro s s' _ h
      cases h
      rfl
  | cons op ops ih =>
      intro s s' hnb h
      simp only [runOps] at h
      cases hstep : step tr s op with
      | none => rw [hstep] at h; cases h
      | some s1 =>
          rw [hstep] at h
          have h1 := step_nonbinding_phase tr s op s1
            (hnb op (List.mem_cons_self op ops)) hstep
          have h2 := ih s1 s' (fun o ho => hnb o (List.mem_cons_of_mem op ho)) h
          rw [h2, h1]

/-- No method can move a `Targetted` builder back to phase `NoTarget`. -/
theorem step_targetted_phase (tr : Traits) (s : BState) (op : BOp)
    (s' : BState) (h : step tr s op = some s') (ht : s.phase = .Targetted) :
    s'.phase = .Targetted := by
  cases op <;> simp only [step] at h <;> split at h <;>
    first
      | exact Option.noConfusion h
      | (injection h with h; subst h; simp_all)

/-! ## Concrete fixtures, used to instantiate the universally quantified
theorems below on closed inputs. -/

/-- A trait oracle granting every bound. -/
def trAll : Traits :=
  { hasLocks := fun _ => true
    hasError := fun _ => true
    shardable := fun _ => true
    vecResult := fun _ => true
    defaultProcess := fun _ => true
    singleKey := true }

/-- Concrete request operations over `Nat` requests and contexts. -/
def wReqOps : KvRequestOps Nat Nat := { set_context := fun r c => r + c }

/-- Concrete single-key operations over `Nat` requests and keys. -/
def wKeyOps : SingleKeyOps Nat Nat := { key := fun r => r }

/-- A store whose region yields context `7`, client handle `5`. -/
def wStoreOk : Store Nat Nat Nat :=
  { region := { context := .ok 7 }, client := 5 }

/-- A store whose region fails to produce a context (error `9`). -/
def wStoreBad : Store Nat Nat Nat :=
  { region := { context := .error 9 }, client := 5 }

/-- A PD client that resolves every key to `wStoreOk`. -/
def wPdOk : PdClient Nat Nat Nat Nat := { store_for_key := fun _ => .ok wStoreOk }

/-- A PD client whose resolution always fails with error `3`. -/
def wPdErr : PdClient Nat Nat Nat Nat :=
  { store_for_key := fun _ => .error 3 }

/-- A PD client that resolves every key to `wStoreBad`. -/
def wPdBad : PdClient Nat Nat Nat Nat :=
  { store_for_key := fun _ => .ok wStoreBad }

/-- A fresh builder over `wPdOk` holding request `2`. -/
def wBuilderOk :
    PlanBuilder (PdClient Nat Nat Nat Nat) (Dispatch Nat Nat) .NoTarget :=
  { pd_client := wPdOk, plan := { request := 2, kv_client := none } }

/-- A fresh builder over `wPdErr` holding request `2`. -/
def wBuilderErr :
    PlanBuilder (PdClient Nat Nat Nat Nat) (Dispatch Nat Nat) .NoTarget :=
  { pd_client := wPdErr, plan := { request := 2, kv_client := none } }

/-- A fresh builder over `wPdBad` holding request `2`. -/
def wBuilderBad :
    PlanBuilder (PdClient Nat Nat Nat Nat) (Dispatch Nat Nat) .NoTarget :=
  { pd_client := wPdBad, plan := { request := 2, kv_client := none } }

/-- The builder obtained by binding `wBuilderOk` to `wStoreOk`. -/
def wBound :
    PlanBuilder (PdClient Nat Nat Nat Nat) (Dispatch Nat Nat) .Targetted :=
  { pd_client := wPdOk, plan := { request := 9, kv_client := some 5 } }

/-! ## Claims -/

/-- C1: `plan()` is available only on a builder in phase `Targetted`, and a
builder on which none of `single_region`, `single_region_with_store` or
`multi_region` has been applied is still in phase `NoTarget` and has no way
to produce a finalized plan. -/
theorem claim_C1_plan_only_after_binding :
    (∀ (s : BState) (p : PlanShape), finalize s = some p →
      s.phase = .Targetted) ∧
    (∀ (tr : Traits) (ops : List BOp) (s : BState),
      (∀ op ∈ ops, isBinding op = false) →
      runOps tr newState ops = some s →
      s.phase = .NoTarget ∧ finalize s = none) := by
  constructor
  · intro s p h
    simp only [finalize] at h
    split at h
    · assumption
    · exact Option.noConfusion h
  · intro tr ops s hnb h
    have hp : s.phase = PlanBuilderPhase.NoTarget :=
      runOps_nonbinding_phase tr ops newState s hnb h
    refine ⟨hp, ?_⟩
    simp [finalize, hp]

/-- Closed instance of `claim_C1_plan_only_after_binding`: one `resolve_lock`
on a fresh builder leaves it in `NoTarget` with no finalized plan. -/
theorem claim_C1_plan_only_after_binding_witness :
    ({ phase := .NoTarget, shape := .resolveLock .dispatch } : BState).phase
      = .NoTarget ∧
    finalize { phase := .NoTarget, shape := .resolveLock .dispatch } = none :=
  claim_C1_plan_only_after_binding.2 trAll [.resolve_lock]
    { phase := .NoTarget, shape := .resolveLock .dispatch }
    (by decide) (by decide)

/-- C2: no builder method moves phase `Targetted` back to `NoTarget`, and a
finalized plan is only obtained from a builder in phase `Targetted`. -/
theorem claim_C2_no_phase_downgrade :
    (∀ (tr : Traits) (s : BState) (op : BOp) (s' : BState),
      step tr s op = some s' → s.phase = .Targetted →
      s'.phase = .Targetted) ∧
    (∀ (s : BState) (p : PlanShape), finalize s = some p →
      s.phase = .Targetted) := by
  constructor
  · exact fun tr s op s' h ht => step_targetted_phase tr s op s' h ht
  · intro s p h
    simp only [finalize] at h
    split at h
    · assumption
    · exact Option.noConfusion h

/-- Closed instance of `claim_C2_no_phase_downgrade`: `resolve_lock` on a
`Targetted` builder stays `Targetted`. -/
theorem claim_C2_no_phase_downgrade_witness :
    ({ phase := .Targetted, shape := .resolveLock .dispatch } : BState).phase
      = .Targetted :=
  claim_C2_no_phase_downgrade.1 trAll { phase := .Targetted, shape := .dispatch }
    .resolve_lock { phase := .Targetted, shape := .resolveLock .dispatch }
    (by decide) rfl

/-- C3: `multi_region` is available exactly on a `NoTarget` builder whose
plan is `Shardable` with a `HasError` result; it then yields a `Targetted`
builder whose plan is a `MultiRegion` node, and at the value level the new
node's inner plan is the previous plan, unmodified, with the shared PD
client stored alongside. -/
theorem claim_C3_multi_region :
    (∀ (tr : Traits) (s s' : BState),
      step tr s .multi_region = some s' ↔
        (s.phase = .NoTarget ∧ tr.shardable s.shape = true ∧
          tr.hasError s.shape = true ∧
          s' = { phase := .Targetted, shape := .multiRegion s.shape })) ∧
    (∀ (PdC P : Type) (b : PlanBuilder PdC P .NoTarget),
      (b.multi_region).plan.inner = b.plan ∧
      (b.multi_region).plan.pd_client = b.pd_client ∧
      (b.multi_region).pd_client = b.pd_client) := by
  constructor
  · intro tr s s'
    simp only [step]
    split
    · next hc =>
        simp only [Option.some.injEq]
        constructor
        · intro h
          exact ⟨hc.1, hc.2.1, hc.2.2, h.symm⟩
        · intro h
          exact h.2.2.2.symm
    · next hc =>
        constructor
        · intro h
          exact Option.noConfusion h
        · intro h
          exact absurd ⟨h.1, h.2.1, h.2.2.1⟩ hc
  · intro PdC P b
    exact ⟨rfl, rfl, rfl⟩

/-- Closed instance of `claim_C3_multi_region`: `multi_region` on a fresh
`NoTarget` builder yields a `Targetted` builder with one `MultiRegion`
node. -/
theorem claim_C3_multi_region_witness :
    step trAll { phase := .NoTarget, shape := .dispatch } .multi_region
      = some { phase := .Targetted, shape := .multiRegion .dispatch } :=
  (claim_C3_multi_region.1 trAll { phase := .NoTarget, shape := .dispatch }
    { phase := .Targetted, shape := .multiRegion .dispatch }).mpr
    ⟨rfl, rfl, rfl, rfl⟩

/-- C5: `resolve_lock`, `retry_region`, `merge` and `post_process_default`
are phase-polymorphic: a successful application preserves the phase and adds
exactly one decorator node; their availability depends only on the trait
bound of the plan, not on the phase; and at the value level the new
decorator's inner plan is the previous plan, unmodified. -/
theorem claim_C5_phase_polymorphic :
    (∀ (tr : Traits) (s s' : BState),
      (step tr s .resolve_lock = some s' →
        s'.phase = s.phase ∧ s'.shape = .resolveLock s.shape) ∧
      (step tr s .retry_region = some s' →
        s'.phase = s.phase ∧ s'.shape = .retryRegion s.shape) ∧
      (step tr s .merge = some s' →
        s'.phase = s.phase ∧ s'.shape = .mergeResponse s.shape) ∧
      (step tr s .post_process_default = some s' →
        s'.phase = s.phase ∧ s'.shape = .processResponse s.shape)) ∧
    (∀ (tr : Traits) (ph : PlanBuilderPhase) (sh : PlanShape),
      (step tr { phase := ph, shape := sh } .resolve_lock).isSome
        = tr.hasLocks sh ∧
      (step tr { phase := ph, shape := sh } .retry_region).isSome
        = tr.hasError sh ∧
      (step tr { phase := ph, shape := sh } .merge).isSome
        = tr.vecResult sh ∧
      (step tr { phase := ph, shape := sh } .post_process_default).isSome
        = tr.defaultProcess sh) ∧
    (∀ (PdC P Backoff M : Type) (Ph : PlanBuilderPhase)
      (b : PlanBuilder PdC P Ph) (bo : Backoff) (m : M),
      (b.resolve_lock bo).plan.inner = b.plan ∧
      (b.retry_region bo).plan.inner = b.plan ∧
      (b.merge m).plan.inner = b.plan ∧
      (b.post_process_default).plan.inner = b.plan) := by
  refine ⟨?_, ?_, ?_⟩
  · intro tr s s'
    refine ⟨?_, ?_, ?_, ?_⟩ <;>
      (intro h
       simp only [step] at h
       split at h <;>
        first
          | exact Option.noConfusion h
          | (injection h with h; subst h; exact ⟨rfl, rfl⟩))
  · intro tr ph sh
    refine ⟨?_, ?_, ?_, ?_⟩ <;>
      (simp only [step]
       split <;> simp_all)
  · intro PdC P Backoff M Ph b bo m
    exact ⟨rfl, rfl, rfl, rfl⟩

/-- Closed instance of `claim_C5_phase_polymorphic`: `resolve_lock` applied
on a `Targetted` builder keeps the phase and adds one `ResolveLock` node. -/
theorem claim_C5_phase_polymorphic_witness :
    ({ phase := .Targetted, shape := .resolveLock .dispatch } : BState).phase
      = ({ phase := .Targetted, shape := .dispatch } : BState).phase ∧
    ({ phase := .Targetted, shape := .resolveLock .dispatch } : BState).shape
      = .resolveLock ({ phase := .Targetted, shape := .dispatch } : BState).shape :=
  (claim_C5_phase_polymorphic.1 trAll
    { phase := .Targetted, shape := .dispatch }
    { phase := .Targetted, shape := .resolveLock .dispatch }).1 (by decide)

/-- C7: `extract_error` is available exactly on a `Targetted` builder whose
plan's result has `HasError`; it keeps the builder `Targetted` and wraps the
plan in an `ExtractError` node whose inner plan is the previous plan,
unmodified. -/
theorem claim_C7_extract_error :
    (∀ (tr : Traits) (s s' : BState),
      step tr s .extract_error = some s' ↔
        (s.phase = .Targetted ∧ tr.hasError s.shape = true ∧
          s' = { phase := .Targetted, shape := .extractError s.shape })) ∧
    (∀ (PdC P : Type) (b : PlanBuilder PdC P .Targetted),
      (b.extract_error).plan.inner = b.plan ∧
      (b.extract_error).pd_client = b.pd_client) := by
  constructor
  · intro tr s s'
    simp only [step]
    split
    · next hc =>
        simp only [Option.some.injEq]
        constructor
        · intro h
          exact ⟨hc.1, hc.2, h.symm⟩
        · intro h
          exact h.2.2.symm
    · next hc =>
        constructor
        · intro h
          exact Option.noConfusion h
        · intro h
          exact absurd ⟨h.1, h.2.1⟩ hc
  · intro PdC P b
    exact ⟨rfl, rfl⟩

/-- Closed instance of `claim_C7_extract_error`: `extract_error` on a
`Targetted` builder stays `Targetted` and adds one `ExtractError` node. -/
theorem claim_C7_extract_error_witness :
    step trAll { phase := .Targetted, shape := .dispatch } .extract_error
      = some { phase := .Targetted, shape := .extractError .dispatch } :=
  (claim_C7_extract_error.1 trAll { phase := .Targetted, shape := .dispatch }
    { phase := .Targetted, shape := .extractError .dispatch }).mpr
    ⟨rfl, rfl, rfl⟩

/-- C8: `new(pd_client, request)` yields a `NoTarget` builder holding a bare
`Dispatch` with exactly the given request and no kv client bound. -/
theorem claim_C8_new :
    (∀ (PdC R KvClient : Type) (pd : PdC) (req : R),
      (PlanBuilder.new pd req : PlanBuilder PdC (Dispatch R KvClient) .NoTarget)
        = { pd_client := pd,
            plan := { request := req, kv_client := none } }) ∧
    newState = { phase := .NoTarget, shape := .dispatch } :=
  ⟨fun _ _ _ _ _ => rfl, rfl⟩

/-- Closed instance of `claim_C8_new`: a fresh builder over PD client `0`
and request `2`. -/
theorem claim_C8_new_witness :
    (PlanBuilder.new (0 : Nat) (2 : Nat) :
        PlanBuilder Nat (Dispatch Nat Nat) .NoTarget)
      = { pd_client := 0, plan := { request := 2, kv_client := none } } :=
  claim_C8_new.1 Nat Nat Nat 0 2

/-- C4: the binding operation fails exactly when its collaborators fail:
`single_region` propagates a routing-resolution error from `store_for_key`,
and propagates a failure of producing the routing context to set on the
request (`store.region.context()`); when both collaborators succeed it
returns a `Targetted` builder instead of an error. -/
theorem claim_C4_binding_error_propagation :
    ∀ (R K Ctx Err KvClient : Type) (sops : SingleKeyOps R K)
      (kops : KvRequestOps R Ctx)
      (b : PlanBuilder (PdClient K Ctx Err KvClient) (Dispatch R KvClient)
        .NoTarget),
      (∀ e : Err,
        b.pd_client.store_for_key (sops.key b.plan.request) = .error e →
        b.single_region sops kops = .error e) ∧
      (∀ (store : Store Ctx Err KvClient) (e : Err),
        b.pd_client.store_for_key (sops.key b.plan.request) = .ok store →
        store.region.context = .error e →
        b.single_region sops kops = .error e) ∧
      (∀ (store : Store Ctx Err KvClient) (ctx : Ctx),
        b.pd_client.store_for_key (sops.key b.plan.request) = .ok store →
        store.region.context = .ok ctx →
        ∃ b', b.single_region sops kops = .ok b') := by
  intro R K Ctx Err KvClient sops kops b
  refine ⟨?_, ?_, ?_⟩
  · intro e he
    simp [PlanBuilder.single_region, he]
  · intro store e hs hc
    simp [PlanBuilder.single_region, set_single_region_store, hs, hc]
  · intro store ctx hs hc
    refine ⟨{ pd_client := b.pd_client
              plan := { request := kops.set_context b.plan.request ctx
                        kv_client := some store.client } }, ?_⟩
    simp [PlanBuilder.single_region, set_single_region_store, hs, hc]

/-- Closed instance of `claim_C4_binding_error_propagation`: a failing PD
client propagates error `3`, a store with a failing region context
propagates error `9`, and with both collaborators succeeding a builder is
returned. -/
theorem claim_C4_binding_error_propagation_witness :
    wBuilderErr.single_region wKeyOps wReqOps = .error 3 ∧
    wBuilderBad.single_region wKeyOps wReqOps = .error 9 ∧
    ∃ b', wBuilderOk.single_region wKeyOps wReqOps = .ok b' :=
  ⟨(claim_C4_binding_error_propagation Nat Nat Nat Nat Nat wKeyOps wReqOps
      wBuilderErr).1 3 rfl,
   (claim_C4_binding_error_propagation Nat Nat Nat Nat Nat wKeyOps wReqOps
      wBuilderBad).2.1 wStoreBad 9 rfl rfl,
   (claim_C4_binding_error_propagation Nat Nat Nat Nat Nat wKeyOps wReqOps
      wBuilderOk).2.2 wStoreOk 7 rfl rfl⟩

/-- C6: on success, `single_region` resolves the store for the request's key
via the PD client and returns a `Targetted` builder whose `Dispatch` has the
routing context produced from the resolved store's region installed on the
request and the store's client handle bound as the dispatch target;
`single_region_with_store` does the same with the caller-supplied store. -/
theorem claim_C6_single_region_success :
    (∀ (R K Ctx Err KvClient : Type) (sops : SingleKeyOps R K)
      (kops : KvRequestOps R Ctx)
      (b : PlanBuilder (PdClient K Ctx Err KvClient) (Dispatch R KvClient)
        .NoTarget)
      (store : Store Ctx Err KvClient) (ctx : Ctx),
      b.pd_client.store_for_key (sops.key b.plan.request) = .ok store →
      store.region.context = .ok ctx →
      b.single_region sops kops =
        .ok { pd_client := b.pd_client
              plan := { request := kops.set_context b.plan.request ctx
                        kv_client := some store.client } }) ∧
    (∀ (PdC R Ctx Err KvClient : Type) (kops : KvRequestOps R Ctx)
      (b : PlanBuilder PdC (Dispatch R KvClient) .NoTarget)
      (store : Store Ctx Err KvClient) (ctx : Ctx),
      store.region.context = .ok ctx →
      b.single_region_with_store kops store =
        .ok { pd_client := b.pd_client
              plan := { request := kops.set_context b.plan.request ctx
                        kv_client := some store.client } }) := by
  constructor
  · intro R K Ctx Err KvClient sops kops b store ctx hs hc
    simp [PlanBuilder.single_region, set_single_region_store, hs, hc]
  · intro PdC R Ctx Err KvClient kops b store ctx hc
    simp [PlanBuilder.single_region_with_store, set_single_region_store, hc]

/-- Closed instance of `claim_C6_single_region_success`: binding request `2`
through `wStoreOk` installs context `7` and client handle `5`. -/
theorem claim_C6_single_region_success_witness :
    wBuilderOk.single_region wKeyOps wReqOps =
      .ok { pd_client := wBuilderOk.pd_client
            plan := { request := wReqOps.set_context wBuilderOk.plan.request 7
                      kv_client := some wStoreOk.client } } ∧
    wBuilderOk.single_region_with_store wReqOps wStoreOk =
      .ok { pd_client := wBuilderOk.pd_client
            plan := { request := wReqOps.set_context wBuilderOk.plan.request 7
                      kv_client := some wStoreOk.client } } :=
  ⟨claim_C6_single_region_success.1 Nat Nat Nat Nat Nat wKeyOps wReqOps
      wBuilderOk wStoreOk 7 rfl rfl,
   claim_C6_single_region_success.2 (PdClient Nat Nat Nat Nat) Nat Nat Nat Nat
      wReqOps wBuilderOk wStoreOk 7 rfl⟩

/-- C9: error atomicity of `set_single_region_store`: if producing the
routing context from the store's region fails, that error is returned as-is
and no builder is produced — in particular none with a mutated request or a
bound client handle. -/
theorem claim_C9_binding_atomic_error :
    ∀ (PdC R Ctx Err KvClient : Type) (kops : KvRequestOps R Ctx)
      (plan : Dispatch R KvClient) (store : Store Ctx Err KvClient)
      (pd : PdC) (e : Err),
      store.region.context = .error e →
      set_single_region_store kops plan store pd = .error e ∧
      ∀ b', set_single_region_store kops plan store pd ≠ .ok b' := by
  intro PdC R Ctx Err KvClient kops plan store pd e hc
  constructor
  · simp [set_single_region_store, hc]
  · intro b' h
    simp [set_single_region_store, hc] at h

/-- Closed instance of `claim_C9_binding_atomic_error`: a store whose region
context production fails with `9` makes `set_single_region_store` return
exactly that error. -/
theorem claim_C9_binding_atomic_error_witness :
    set_single_region_store wReqOps { request := 2, kv_client := none }
      wStoreBad (0 : Nat) = .error 9 :=
  (claim_C9_binding_atomic_error Nat Nat Nat Nat Nat wReqOps
    { request := 2, kv_client := none } wStoreBad 0 9 rfl).1

/-- C10: `single_region_with_store` needs no `SingleKey` bound (its
availability is independent of the trait oracle's `singleKey` flag), never
invokes routing resolution (the resulting plan is the same for any two
builders with equal plans, whatever their PD clients), and on success the
builder is bound to exactly the caller-supplied store: its client handle and
its region's context. -/
theorem claim_C10_with_store :
    (∀ (tr : Traits) (s : BState) (k : Bool),
      step { tr with singleKey := k } s .single_region_with_store
        = step tr s .single_region_with_store) ∧
    (∀ (PdC1 PdC2 R Ctx Err KvClient : Type) (kops : KvRequestOps R Ctx)
      (b1 : PlanBuilder PdC1 (Dispatch R KvClient) .NoTarget)
      (b2 : PlanBuilder PdC2 (Dispatch R KvClient) .NoTarget)
      (store : Store Ctx Err KvClient),
      b1.plan = b2.plan →
      (b1.single_region_with_store kops store).map (fun x => x.plan)
        = (b2.single_region_with_store kops store).map (fun x => x.plan)) ∧
    (∀ (PdC R Ctx Err KvClient : Type) (kops : KvRequestOps R Ctx)
      (b : PlanBuilder PdC (Dispatch R KvClient) .NoTarget)
      (store : Store Ctx Err KvClient)
      (b' : PlanBuilder PdC (Dispatch R KvClient) .Targetted),
      b.single_region_with_store kops store = .ok b' →
      b'.plan.kv_client = some store.client ∧
      b'.pd_client = b.pd_client ∧
      ∃ ctx, store.region.context = .ok ctx ∧
        b'.plan.request = kops.set_context b.plan.request ctx) := by
  refine ⟨?_, ?_, ?_⟩
  · intro tr s k
    rfl
  · intro PdC1 PdC2 R Ctx Err KvClient kops b1 b2 store hp
    simp only [PlanBuilder.single_region_with_store, set_single_region_store,
      hp]
    cases hc : store.region.context <;> simp [hc, Except.map]
  · intro PdC R Ctx Err KvClient kops b store b' h
    simp only [PlanBuilder.single_region_with_store,
      set_single_region_store] at h
    cases hc : store.region.context with
    | error e =>
        rw [hc] at h
        exact Except.noConfusion h
    | ok ctx =>
        rw [hc] at h
        injection h with h
        subst h
        exact ⟨rfl, rfl, ctx, rfl, rfl⟩

/-- Closed instance of `claim_C10_with_store`: binding `wBuilderOk` to the
caller-supplied `wStoreOk` yields exactly `wStoreOk`'s client handle and
context. -/
theorem claim_C10_with_store_witness :
    wBound.plan.kv_client = some wStoreOk.client ∧
    wBound.pd_client = wBuilderOk.pd_client ∧
    ∃ ctx, wStoreOk.region.context = .ok ctx ∧
      wBound.plan.request = wReqOps.set_context wBuilderOk.plan.request ctx :=
  claim_C10_with_store.2.2 (PdClient Nat Nat Nat Nat) Nat Nat Nat Nat wReqOps
    wBuilderOk wStoreOk wBound rfl

end PB
